import Mathlib

/-!
Verification of the client-side audio session controller of
`VoiceChanger-Beta` (`src/s.py`).  The Python file is a Flask shim that
serves one HTML page; all behaviour of interest lives in the inline
JavaScript of that page.  We embed that script shallowly: each module-level
JavaScript variable becomes a field of `AppState`, each outgoing Web Audio
connection of the current nodes becomes a boolean edge, and each event
handler becomes a total function `AppState → AppState`.

Modelling conventions, read off the source line by line:
* `audioContext`, `micStream`, `micSource`, `animationId` are nullable
  globals; we record whether each has ever been assigned (they are never
  reset to null anywhere in the script).
* `micStream.getTracks().forEach(track => track.stop())` releases the
  device; we track liveness in `micStreamLive` and count the calls in
  `trackStopCalls` so that "no device release happened" is expressible.
* `cancelAnimationFrame` is counted in `cancelAnimationCalls` and the
  loop's activity is `animationActive`.
* `micSource.disconnect()` (no arguments) removes every outgoing edge of
  `micSource`: `srcToAnalyser`, `srcToDelay`, `srcToDest` all become false.
  It does not touch `delayToDest`, which is an outgoing edge of the delay
  node.
* `decodeAudioData` is asynchronous with success/error callbacks; a drop
  event is modelled as a function of the dropped files, where each file
  carries its MIME check result and its decode outcome.
-/

/-- One `AudioBufferSourceNode` created by `playDroppedAudio`:
`audioContext.createBufferSource()` with `buffer`, `connect(destination)`
and `start()` recorded. -/
structure BufferSource where
  buffer : Nat
  connectedToDest : Bool
  playing : Bool
deriving DecidableEq, Repr

/-- A file delivered by the `drop` event: `file.type.startsWith('audio/')`
is `mimeAudio`, and `decoded` is the outcome of
`audioContext.decodeAudioData` on its bytes (`some b` on the success
callback with decoded buffer identity `b`, `none` on the error callback). -/
structure DroppedFile where
  mimeAudio : Bool
  decoded : Option Nat
deriving DecidableEq, Repr

/-- The module-level state of the inline script of `src/s.py`. -/
structure AppState where
  /-- whether `audioContext` has been constructed -/
  audioContext : Bool
  /-- whether `micStream` has ever been assigned -/
  micStream : Bool
  /-- whether the capture stream's tracks are still live (device held) -/
  micStreamLive : Bool
  /-- whether `micSource` has ever been assigned -/
  micSource : Bool
  /-- edge `micSource → analyserNode` -/
  srcToAnalyser : Bool
  /-- edge `micSource → delayNode` -/
  srcToDelay : Bool
  /-- edge `micSource → audioContext.destination` -/
  srcToDest : Bool
  /-- edge `delayNode → audioContext.destination` -/
  delayToDest : Bool
  /-- the `isDelayEnabled` boolean -/
  isDelayEnabled : Bool
  /-- whether `animationId` has ever been assigned -/
  animationId : Bool
  /-- whether the `drawWaveform` loop is still being rescheduled -/
  animationActive : Bool
  /-- `droppedAudioBuffer` (decoded buffer identity, `none` until a decode
  succeeds) -/
  droppedAudioBuffer : Option Nat
  /-- every buffer source ever created by `playDroppedAudio`, in creation
  order; `droppedAudioSource` is the last entry when one exists -/
  players : List BufferSource
  /-- `startMicBtn.disabled` -/
  startMicDisabled : Bool
  /-- `stopMicBtn.disabled` -/
  stopMicDisabled : Bool
  /-- `toggleDelayBtn.disabled` -/
  toggleDelayDisabled : Bool
  /-- `playAudioBtn.disabled` -/
  playAudioDisabled : Bool
  /-- `statusMessage.textContent` -/
  statusMessage : String
  /-- number of `track.stop()` invocations so far -/
  trackStopCalls : Nat
  /-- number of `cancelAnimationFrame` invocations so far -/
  cancelAnimationCalls : Nat
deriving DecidableEq, Repr

/-- The page as loaded: every nullable global unset, `isDelayEnabled =
false`, the `stop`/`toggle delay`/`play` buttons carry the `disabled`
attribute in the markup, the start button does not, and the status
paragraph is empty. -/
def initState : AppState :=
  { audioContext := false
    micStream := false
    micStreamLive := false
    micSource := false
    srcToAnalyser := false
    srcToDelay := false
    srcToDest := false
    delayToDest := false
    isDelayEnabled := false
    animationId := false
    animationActive := false
    droppedAudioBuffer := none
    players := []
    startMicDisabled := false
    stopMicDisabled := true
    toggleDelayDisabled := true
    playAudioDisabled := true
    statusMessage := ""
    trackStopCalls := 0
    cancelAnimationCalls := 0 }

/-- `if (!audioContext) audioContext = new AudioContext()`. -/
def ensureContext (s : AppState) : AppState :=
  if s.audioContext then s else { s with audioContext := true }

/-- `startMicrophone` (src/s.py lines 264–302).  `grant` is the outcome of
`navigator.mediaDevices.getUserMedia({ audio: true })`: on `false` the
`await` throws and control jumps to the `catch` block, which only writes
the status text.  On success, fresh `micSource`, `delayNode` and
`analyserNode` nodes are created, `micSource` is connected to the analyser
and then routed through the delay or directly depending on
`isDelayEnabled`; the stop and toggle-delay buttons are enabled and
`drawWaveform` is started. -/
def startMicrophone (grant : Bool) (s : AppState) : AppState :=
  let s1 := ensureContext s
  if grant then
    { s1 with
      micStream := true
      micStreamLive := true
      micSource := true
      srcToAnalyser := true
      srcToDelay := s1.isDelayEnabled
      delayToDest := s1.isDelayEnabled
      srcToDest := !s1.isDelayEnabled
      stopMicDisabled := false
      toggleDelayDisabled := false
      statusMessage := "Microphone started."
      animationId := true
      animationActive := true }
  else
    { s1 with statusMessage := "Error accessing microphone." }

/-- `stopMicrophone` (src/s.py lines 304–314): stop the tracks if
`micStream` is set, cancel the animation frame if `animationId` is set,
then disable the stop and toggle-delay buttons and set the status. -/
def stopMicrophone (s : AppState) : AppState :=
  let s1 :=
    if s.micStream then
      { s with micStreamLive := false, trackStopCalls := s.trackStopCalls + 1 }
    else s
  let s2 :=
    if s1.animationId then
      { s1 with animationActive := false,
                cancelAnimationCalls := s1.cancelAnimationCalls + 1 }
    else s1
  { s2 with stopMicDisabled := true
            toggleDelayDisabled := true
            statusMessage := "Microphone stopped." }

/-- `toggleDelay` (src/s.py lines 317–329): flip `isDelayEnabled`; then, if
`micSource` is set, `micSource.disconnect()` (removing all three outgoing
edges of `micSource`) and reconnect through the delay node or directly,
setting the status text.  When `micSource` was never assigned nothing else
happens — in particular no status text is written. -/
def toggleDelay (s : AppState) : AppState :=
  let s1 := { s with isDelayEnabled := !s.isDelayEnabled }
  if s1.micSource then
    if s1.isDelayEnabled then
      { s1 with srcToAnalyser := false
                srcToDelay := true
                srcToDest := false
                delayToDest := true
                statusMessage := "Delay enabled." }
    else
      { s1 with srcToAnalyser := false
                srcToDelay := false
                srcToDest := true
                statusMessage := "Delay disabled." }
  else s1

/-- `droppedAudioSource.stop()` applied to the most recently created
buffer source (the one the `droppedAudioSource` variable refers to). -/
def stopLast : List BufferSource → List BufferSource
  | [] => []
  | [p] => [{ p with playing := false }]
  | p :: q :: r => p :: stopLast (q :: r)

/-- `playDroppedAudio` (src/s.py lines 332–343): a no-op unless
`droppedAudioBuffer` is set; otherwise stop the current
`droppedAudioSource` if there is one, create a fresh buffer source from
the decoded buffer, connect it to the destination and start it. -/
def playDroppedAudio (s : AppState) : AppState :=
  match s.droppedAudioBuffer with
  | none => s
  | some b =>
    { s with
      players := stopLast s.players ++
        [{ buffer := b, connectedToDest := true, playing := true }]
      statusMessage := "Playing dropped audio." }

/-- The `drop` handler (src/s.py lines 206–234): nothing happens on an
empty file list; only the first file is considered; a non-audio MIME type
writes the rejection status and nothing else; an audio-typed file has its
bytes read, the context created if absent, and its decode outcome applied
by the success or error callback. -/
def handleDrop (files : List DroppedFile) (s : AppState) : AppState :=
  match files with
  | [] => s
  | f :: _ =>
    if f.mimeAudio then
      let s1 := ensureContext s
      match f.decoded with
      | some b =>
        { s1 with droppedAudioBuffer := some b
                  statusMessage := "Audio file loaded."
                  playAudioDisabled := false }
      | none => { s1 with statusMessage := "Error decoding audio file." }
    else
      { s with statusMessage := "Please drop a valid audio file." }

/-- A user-triggered event of the page. -/
inductive Event where
  | start (grant : Bool)
  | stop
  | toggle
  | play
  | drop (files : List DroppedFile)
deriving DecidableEq, Repr

/-- Dispatch one event to its handler. -/
def step (e : Event) (s : AppState) : AppState :=
  match e with
  | .start g => startMicrophone g s
  | .stop => stopMicrophone s
  | .toggle => toggleDelay s
  | .play => playDroppedAudio s
  | .drop fs => handleDrop fs s

/-- Run a sequence of events from a given state. -/
def runFrom (s : AppState) (es : List Event) : AppState :=
  es.foldl (fun t e => step e t) s

/-- Run a sequence of events from the freshly loaded page. -/
def run (es : List Event) : AppState :=
  runFrom initState es

/-- A state the page can actually be in. -/
def Reachable (s : AppState) : Prop :=
  ∃ es : List Event, run es = s

/-- The microphone is active: the capture stream exists and its tracks
have not been stopped. -/
def micActive (s : AppState) : Bool :=
  s.micStream && s.micStreamLive

/-- The routing path `capture → delay → destination` is fully connected. -/
def delayPathActive (s : AppState) : Bool :=
  s.srcToDelay && s.delayToDest

/-- The routing path `capture → destination` is connected. -/
def directPathActive (s : AppState) : Bool :=
  s.srcToDest

/-- Number of buffer sources currently playing. -/
def countPlaying (s : AppState) : Nat :=
  (s.players.filter (fun p => p.playing)).length

/-- At most the most recently created buffer source may be playing:
every buffer source but the last has been stopped. -/
def onlyLastMayPlay : List BufferSource → Bool
  | [] => true
  | [_] => true
  | p :: q :: r => !p.playing && onlyLastMayPlay (q :: r)

/-! ## Helper lemmas -/

/-- An invariant holding initially and preserved by every step holds in
every reachable state. -/
theorem reachable_inv {P : AppState → Prop} (h0 : P initState)
    (hstep : ∀ e s, P s → P (step e s)) {s : AppState} (hr : Reachable s) :
    P s := by
  obtain ⟨es, rfl⟩ := hr
  rw [run]
  suffices h : ∀ t, P t → P (runFrom t es) from h initState h0
  induction es with
  | nil => intro t ht; exact ht
  | cons e es ih =>
    intro t ht
    exact ih (step e t) (hstep e t ht)

@[simp] theorem ensureContext_micStream (s : AppState) :
    (ensureContext s).micStream = s.micStream := by
  unfold ensureContext; split <;> rfl

@[simp] theorem ensureContext_micStreamLive (s : AppState) :
    (ensureContext s).micStreamLive = s.micStreamLive := by
  unfold ensureContext; split <;> rfl

@[simp] theorem ensureContext_micSource (s : AppState) :
    (ensureContext s).micSource = s.micSource := by
  unfold ensureContext; split <;> rfl

@[simp] theorem ensureContext_isDelayEnabled (s : AppState) :
    (ensureContext s).isDelayEnabled = s.isDelayEnabled := by
  unfold ensureContext; split <;> rfl

@[simp] theorem ensureContext_players (s : AppState) :
    (ensureContext s).players = s.players := by
  unfold ensureContext; split <;> rfl

@[simp] theorem ensureContext_droppedAudioBuffer (s : AppState) :
    (ensureContext s).droppedAudioBuffer = s.droppedAudioBuffer := by
  unfold ensureContext; split <;> rfl

@[simp] theorem ensureContext_startMicDisabled (s : AppState) :
    (ensureContext s).startMicDisabled = s.startMicDisabled := by
  unfold ensureContext; split <;> rfl

@[simp] theorem ensureContext_stopMicDisabled (s : AppState) :
    (ensureContext s).stopMicDisabled = s.stopMicDisabled := by
  unfold ensureContext; split <;> rfl

@[simp] theorem ensureContext_toggleDelayDisabled (s : AppState) :
    (ensureContext s).toggleDelayDisabled = s.toggleDelayDisabled := by
  unfold ensureContext; split <;> rfl

@[simp] theorem ensureContext_playAudioDisabled (s : AppState) :
    (ensureContext s).playAudioDisabled = s.playAudioDisabled := by
  unfold ensureContext; split <;> rfl

@[simp] theorem ensureContext_audioContext (s : AppState) :
    (ensureContext s).audioContext = true := by
  unfold ensureContext; split <;> simp_all

/-- No handler ever unsets `micSource` once assigned, and the only
assignment of `micStreamLive` sets `micSource` with it, so a live stream
implies an assigned capture source. -/
theorem live_implies_source {s : AppState} (hr : Reachable s) :
    s.micStreamLive = true → s.micSource = true := by
  refine @reachable_inv (fun t => t.micStreamLive = true → t.micSource = true)
    ?_ ?_ s hr
  · intro h; simp [initState] at h
  · intro e t ht
    cases e with
    | start g =>
      cases g <;> simp_all [step, startMicrophone]
    | stop =>
      simp only [step, stopMicrophone]
      split <;> (try split) <;> simp_all
    | toggle =>
      simp only [step, toggleDelay]
      split <;> (try split) <;> simp_all
    | play =>
      simp only [step, playDroppedAudio]
      split <;> simp_all
    | drop fs =>
      rcases fs with _ | ⟨f, rest⟩
      · exact ht
      · simp only [step, handleDrop]
        split
        · split <;> simp_all
        · simp_all

/-- Stopping the current `droppedAudioSource` and appending a fresh one
keeps every buffer source but the last stopped. -/
theorem onlyLastMayPlay_stopLast_append (p : BufferSource) :
    ∀ l : List BufferSource, onlyLastMayPlay l = true →
      onlyLastMayPlay (stopLast l ++ [p]) = true := by
  intro l
  induction l with
  | nil => intro _; rfl
  | cons q t ih =>
    cases t with
    | nil => intro _; simp [stopLast, onlyLastMayPlay]
    | cons r u =>
      intro h
      have h1 : q.playing = false ∧ onlyLastMayPlay (r :: u) = true := by
        simpa [onlyLastMayPlay] using h
      have ih2 := ih h1.2
      have hs : stopLast (q :: r :: u) = q :: stopLast (r :: u) := rfl
      rw [hs, List.cons_append]
      obtain ⟨x, xs, he⟩ : ∃ x xs, stopLast (r :: u) ++ [p] = x :: xs := by
        cases u <;> exact ⟨_, _, rfl⟩
      rw [he] at ih2 ⊢
      simp [onlyLastMayPlay, h1.1, ih2]

/-- If every buffer source but the last is stopped, at most one buffer
source is playing. -/
theorem length_filter_playing_le_one :
    ∀ l : List BufferSource, onlyLastMayPlay l = true →
      (l.filter fun p => p.playing).length ≤ 1 := by
  intro l
  induction l with
  | nil => intro _; simp
  | cons q t ih =>
    cases t with
    | nil =>
      intro _
      cases hq : q.playing <;> simp [List.filter, hq]
    | cons r u =>
      intro h
      have h1 : q.playing = false ∧ onlyLastMayPlay (r :: u) = true := by
        simpa [onlyLastMayPlay] using h
      simpa [List.filter, h1.1] using ih h1.2

/-- Every handler either leaves `players` unchanged or (for
`playDroppedAudio`) stops the current source and appends a started one, so
the stopped-but-last discipline is maintained from the page load on. -/
theorem reachable_onlyLastMayPlay {s : AppState} (hr : Reachable s) :
    onlyLastMayPlay s.players = true := by
  refine @reachable_inv (fun t => onlyLastMayPlay t.players = true) ?_ ?_ s hr
  · rfl
  · intro e t ht
    cases e with
    | start g =>
      cases g <;> simp [step, startMicrophone] <;> simp_all
    | stop =>
      simp only [step, stopMicrophone]
      split <;> (try split) <;> simp_all
    | toggle =>
      simp only [step, toggleDelay]
      split <;> (try split) <;> simp_all
    | play =>
      simp only [step, playDroppedAudio]
      split
      · exact ht
      · exact onlyLastMayPlay_stopLast_append _ t.players ht
    | drop fs =>
      rcases fs with _ | ⟨f, rest⟩
      · exact ht
      · simp only [step, handleDrop]
        split
        · split <;> simp_all
        · simp_all

/-- Once constructed, the shared audio context is never torn down by any
handler. -/
theorem step_preserves_context (e : Event) (t : AppState)
    (ht : t.audioContext = true) : (step e t).audioContext = true := by
  cases e with
  | start g =>
    cases g <;> simp [step, startMicrophone, ensureContext] <;> simp_all
  | stop =>
    simp only [step, stopMicrophone]
    split <;> (try split) <;> simp_all
  | toggle =>
    simp only [step, toggleDelay]
    split <;> (try split) <;> simp_all
  | play =>
    simp only [step, playDroppedAudio]
    split <;> simp_all
  | drop fs =>
    rcases fs with _ | ⟨f, rest⟩
    · exact ht
    · simp only [step, handleDrop]
      split
      · split <;> simp [ensureContext] <;> split <;> simp_all
      · simp_all

/-- The audio context survives any further sequence of events. -/
theorem runFrom_preserves_context (es : List Event) :
    ∀ t : AppState, t.audioContext = true →
      (runFrom t es).audioContext = true := by
  induction es with
  | nil => intro t ht; exact ht
  | cons e es ih =>
    intro t ht
    exact ih (step e t) (step_preserves_context e t ht)

/-! ## Claims -/

/-- C1: for every reachable state in which the microphone is active, each
invocation of `toggleDelay` leaves exactly one active routing path between
the capture source and the destination — either capture → delay →
destination or capture → destination, never both paths at once and never
neither. -/
theorem toggleDelay_exactly_one_path (s : AppState) (hr : Reachable s)
    (hm : micActive s = true) :
    Bool.xor (delayPathActive (toggleDelay s))
      (directPathActive (toggleDelay s)) = true := by
  have hlive : s.micStreamLive = true := by
    have := hm
    simp [micActive, Bool.and_eq_true] at this
    exact this.2
  have hsrc : s.micSource = true := live_implies_source hr hlive
  simp only [toggleDelay, delayPathActive, directPathActive]
  cases hd : s.isDelayEnabled <;> simp [hsrc, hd]

/-- Witness for the routing-path exclusivity theorem at the state reached
by one successful microphone start. -/
theorem toggleDelay_exactly_one_path_witness :
    micActive (run [Event.start true]) = true ∧
    Bool.xor (delayPathActive (toggleDelay (run [Event.start true])))
      (directPathActive (toggleDelay (run [Event.start true]))) = true :=
  ⟨by decide,
   toggleDelay_exactly_one_path (run [Event.start true])
     ⟨[Event.start true], rfl⟩ (by decide)⟩

/-- C2 counterexample: after a successful microphone start the capture
source is connected to the analyser, but a single delay toggle — with the
microphone still active — severs that connection, because
`micSource.disconnect()` removes all outgoing edges and only the routing
edge is re-established. -/
theorem toggle_severs_analyser_cex :
    micActive (run [Event.start true]) = true ∧
    (run [Event.start true]).srcToAnalyser = true ∧
    micActive (run [Event.start true, Event.toggle]) = true ∧
    (run [Event.start true, Event.toggle]).srcToAnalyser = false := by
  decide

/-- C2 amended: the capture → analyser connection established by a
successful microphone start persists only until the first delay toggle:
`startMicrophone` connects the capture source to the analyser, and any
`toggleDelay` performed while a capture source exists disconnects it from
the analyser without reconnecting it. -/
theorem analyser_connected_at_start_severed_by_toggle (s : AppState)
    (h : s.micSource = true) :
    (startMicrophone true s).srcToAnalyser = true ∧
    (toggleDelay s).srcToAnalyser = false := by
  constructor
  · simp [startMicrophone]
  · simp only [toggleDelay]
    cases hd : s.isDelayEnabled <;> simp [h, hd]

/-- Witness for the amended analyser-connection theorem at the state
reached by one successful microphone start. -/
theorem analyser_connected_at_start_severed_by_toggle_witness :
    (run [Event.start true]).micSource = true ∧
    (startMicrophone true (run [Event.start true])).srcToAnalyser = true ∧
    (toggleDelay (run [Event.start true])).srcToAnalyser = false :=
  ⟨by decide,
   analyser_connected_at_start_severed_by_toggle (run [Event.start true])
     (by decide)⟩

/-- C3 counterexample: a successful microphone start from the freshly
loaded page enables the stop and toggle-delay controls but does not
disable the start control — `startMicBtn.disabled` is never assigned
anywhere in the script. -/
theorem start_success_start_button_cex :
    (run [Event.start true]).stopMicDisabled = false ∧
    (run [Event.start true]).toggleDelayDisabled = false ∧
    (run [Event.start true]).startMicDisabled = false := by
  decide

/-- C3 amended: when the start-microphone operation succeeds, the stop and
toggle-delay controls are enabled, but the start control's disabled flag
is left unchanged (the operation never disables itself). -/
theorem startMicrophone_success_controls (s : AppState) :
    (startMicrophone true s).stopMicDisabled = false ∧
    (startMicrophone true s).toggleDelayDisabled = false ∧
    (startMicrophone true s).startMicDisabled = s.startMicDisabled := by
  refine ⟨?_, ?_, ?_⟩ <;> simp [startMicrophone]

/-- C4: when the start-microphone operation fails (microphone access
denied or no device), the status text reports the access error and every
control keeps its pre-start disabled state — in particular the stop and
toggle-delay controls stay exactly as they were, and no stream or capture
source is recorded. -/
theorem startMicrophone_failure_controls (s : AppState) :
    (startMicrophone false s).statusMessage = "Error accessing microphone." ∧
    (startMicrophone false s).startMicDisabled = s.startMicDisabled ∧
    (startMicrophone false s).stopMicDisabled = s.stopMicDisabled ∧
    (startMicrophone false s).toggleDelayDisabled = s.toggleDelayDisabled ∧
    (startMicrophone false s).playAudioDisabled = s.playAudioDisabled ∧
    (startMicrophone false s).micStream = s.micStream ∧
    (startMicrophone false s).micSource = s.micSource := by
  refine ⟨?_, ?_, ?_, ?_, ?_, ?_, ?_⟩ <;> simp [startMicrophone]

/-- C5: `playDroppedAudio` is a no-op when no decoded buffer exists;
otherwise the current playback instance (the last created buffer source)
is stopped, and a fresh one-shot source built from the decoded buffer is
connected to the destination and started — so in every reachable state at
most one playback instance is playing after the call. -/
theorem playDroppedAudio_spec (s : AppState) (hr : Reachable s) :
    (s.droppedAudioBuffer = none → playDroppedAudio s = s) ∧
    (s.droppedAudioBuffer ≠ none →
      (playDroppedAudio s).players =
        stopLast s.players ++
          [{ buffer := s.droppedAudioBuffer.getD 0
             connectedToDest := true
             playing := true }] ∧
      onlyLastMayPlay (playDroppedAudio s).players = true ∧
      countPlaying (playDroppedAudio s) ≤ 1) := by
  have hinv := reachable_onlyLastMayPlay hr
  constructor
  · intro h
    simp [playDroppedAudio, h]
  · intro h
    cases hb : s.droppedAudioBuffer with
    | none => exact absurd hb h
    | some b =>
      have heq : playDroppedAudio s =
          { s with
            players := stopLast s.players ++
              [{ buffer := b, connectedToDest := true, playing := true }]
            statusMessage := "Playing dropped audio." } := by
        simp [playDroppedAudio, hb]
      refine ⟨?_, ?_, ?_⟩
      · simp [heq, hb]
      · rw [heq]
        exact onlyLastMayPlay_stopLast_append _ _ hinv
      · rw [heq]
        simp only [countPlaying]
        exact length_filter_playing_le_one _
          (onlyLastMayPlay_stopLast_append _ _ hinv)

/-- Witness for the play-dropped-audio theorem at the state reached by one
successful file drop. -/
theorem playDroppedAudio_spec_witness :
    (run [Event.drop [{ mimeAudio := true, decoded := some 7 }]]).droppedAudioBuffer
        ≠ none ∧
    countPlaying
        (playDroppedAudio
          (run [Event.drop [{ mimeAudio := true, decoded := some 7 }]])) ≤ 1 :=
  ⟨by decide,
   ((playDroppedAudio_spec
        (run [Event.drop [{ mimeAudio := true, decoded := some 7 }]])
        ⟨[Event.drop [{ mimeAudio := true, decoded := some 7 }]], rfl⟩).2
      (by decide)).2.2⟩

/-- C6: for every drop event carrying at least one file — a non-audio MIME
type only sets the rejection status (the play control is not enabled and
the buffer, playback list and every other field are untouched); a decode
failure sets the error status and leaves the buffer, the play control and
the playback list untouched; a successful decode stores the buffer,
enables the play control and sets the loaded status. -/
theorem handleDrop_spec (s : AppState) (f : DroppedFile)
    (rest : List DroppedFile) :
    (f.mimeAudio = false →
      handleDrop (f :: rest) s =
        { s with statusMessage := "Please drop a valid audio file." }) ∧
    (f.mimeAudio = true → f.decoded = none →
      (handleDrop (f :: rest) s).statusMessage = "Error decoding audio file." ∧
      (handleDrop (f :: rest) s).droppedAudioBuffer = s.droppedAudioBuffer ∧
      (handleDrop (f :: rest) s).playAudioDisabled = s.playAudioDisabled ∧
      (handleDrop (f :: rest) s).players = s.players) ∧
    (f.mimeAudio = true → f.decoded ≠ none →
      (handleDrop (f :: rest) s).playAudioDisabled = false ∧
      (handleDrop (f :: rest) s).droppedAudioBuffer = f.decoded ∧
      (handleDrop (f :: rest) s).statusMessage = "Audio file loaded.") := by
  refine ⟨?_, ?_, ?_⟩
  · intro h
    simp [handleDrop, h]
  · intro h hd
    simp [handleDrop, h, hd]
  · intro h hd
    cases hb : f.decoded with
    | none => exact absurd hb hd
    | some b => simp [handleDrop, h, hb]

/-- Witness for the drop-handler theorem: dropping a non-audio file on the
freshly loaded page only sets the rejection status. -/
theorem handleDrop_spec_witness :
    ({ mimeAudio := false, decoded := none } : DroppedFile).mimeAudio = false ∧
    handleDrop [{ mimeAudio := false, decoded := none }] initState =
      { initState with statusMessage := "Please drop a valid audio file." } :=
  ⟨rfl,
   (handleDrop_spec initState { mimeAudio := false, decoded := none } []).1 rfl⟩

/-- C7 counterexample: toggling delay on the freshly loaded page (the
microphone not active, indeed never started) flips the boolean but writes
no status text at all — the status stays empty instead of reporting the
new mode, because `statusMessage.textContent` is only assigned inside the
`if (micSource)` branch of `toggleDelay`. -/
theorem toggle_before_start_no_status_cex :
    micActive (run []) = false ∧
    (run [Event.toggle]).isDelayEnabled = true ∧
    (run [Event.toggle]).statusMessage = "" ∧
    (run [Event.toggle]).statusMessage = (run []).statusMessage := by
  decide

/-- C7 amended: toggling delay while no capture source exists (the
microphone has never been started) changes nothing but the delay-mode
boolean — no graph connection or disconnection occurs and the status text
is left unchanged; the new mode is reported via status text only when a
capture source exists.  (After a stop the `micSource` reference persists,
so a toggle then still rewires the graph and reports the mode.) -/
theorem toggleDelay_without_source_pure_flip (s : AppState)
    (h : s.micSource = false) :
    toggleDelay s = { s with isDelayEnabled := !s.isDelayEnabled } := by
  simp [toggleDelay, h]

/-- Witness for the amended toggle-before-start theorem on the freshly
loaded page. -/
theorem toggleDelay_without_source_pure_flip_witness :
    initState.micSource = false ∧
    toggleDelay initState = { initState with isDelayEnabled := true } :=
  ⟨rfl, toggleDelay_without_source_pure_flip initState rfl⟩

/-- C8: `stopMicrophone` is safe to call when the microphone has never
been started: both the `micStream` and `animationId` accesses are guarded,
so no track is stopped and no animation frame is cancelled — the call
only disables the stop and toggle-delay controls and sets the status, and
being a total function it cannot fail. -/
theorem stopMicrophone_never_started_safe (s : AppState)
    (h1 : s.micStream = false) (h2 : s.animationId = false) :
    stopMicrophone s =
      { s with stopMicDisabled := true
               toggleDelayDisabled := true
               statusMessage := "Microphone stopped." } := by
  simp [stopMicrophone, h1, h2]

/-- Witness for the unconditional-stop theorem on the freshly loaded
page. -/
theorem stopMicrophone_never_started_safe_witness :
    initState.micStream = false ∧ initState.animationId = false ∧
    stopMicrophone initState =
      { initState with stopMicDisabled := true
                       toggleDelayDisabled := true
                       statusMessage := "Microphone stopped." } :=
  ⟨rfl, rfl, stopMicrophone_never_started_safe initState rfl rfl⟩

/-- Stopping the microphone never touches the delay-mode boolean. -/
theorem stopMicrophone_isDelayEnabled (s : AppState) :
    (stopMicrophone s).isDelayEnabled = s.isDelayEnabled := by
  simp only [stopMicrophone]
  split <;> (try split) <;> rfl

/-- A successful microphone start routes the fresh capture source
according to the current delay-mode boolean. -/
theorem startMicrophone_routes (s : AppState) :
    (startMicrophone true s).srcToDelay = s.isDelayEnabled ∧
    (startMicrophone true s).delayToDest = s.isDelayEnabled ∧
    (startMicrophone true s).srcToDest = !s.isDelayEnabled ∧
    (startMicrophone true s).srcToAnalyser = true := by
  refine ⟨?_, ?_, ?_, ?_⟩ <;> simp [startMicrophone]

/-- C9: the delay-mode boolean survives `stopMicrophone`, so for every
sequence start → n toggles → stop → start, the second start routes the
new capture source exactly according to the mode left by the last toggle:
through the delay when it is enabled, directly to the destination when it
is not. -/
theorem delay_mode_persists_across_stop (s : AppState) (n : Nat) :
    (stopMicrophone (toggleDelay^[n] (startMicrophone true s))).isDelayEnabled
        = (toggleDelay^[n] (startMicrophone true s)).isDelayEnabled ∧
    (startMicrophone true
        (stopMicrophone (toggleDelay^[n] (startMicrophone true s)))).srcToDelay
        = (toggleDelay^[n] (startMicrophone true s)).isDelayEnabled ∧
    (startMicrophone true
        (stopMicrophone (toggleDelay^[n] (startMicrophone true s)))).delayToDest
        = (toggleDelay^[n] (startMicrophone true s)).isDelayEnabled ∧
    (startMicrophone true
        (stopMicrophone (toggleDelay^[n] (startMicrophone true s)))).srcToDest
        = !(toggleDelay^[n] (startMicrophone true s)).isDelayEnabled := by
  have h1 := stopMicrophone_isDelayEnabled (toggleDelay^[n] (startMicrophone true s))
  have h2 := startMicrophone_routes
    (stopMicrophone (toggleDelay^[n] (startMicrophone true s)))
  exact ⟨h1, by rw [h2.1, h1], by rw [h2.2.1, h1], by rw [h2.2.2.1, h1]⟩

/-- C10: a failed microphone start is not atomic with respect to the
shared audio context: the context is created before microphone access is
requested, so after a permission or device failure the context exists,
survives any further sequence of events, and yet every control keeps its
not-started state. -/
theorem failed_start_context_persists (s : AppState) (es : List Event) :
    (startMicrophone false s).audioContext = true ∧
    (runFrom (startMicrophone false s) es).audioContext = true ∧
    (startMicrophone false s).startMicDisabled = s.startMicDisabled ∧
    (startMicrophone false s).stopMicDisabled = s.stopMicDisabled ∧
    (startMicrophone false s).toggleDelayDisabled = s.toggleDelayDisabled ∧
    (startMicrophone false s).playAudioDisabled = s.playAudioDisabled := by
  have hc : (startMicrophone false s).audioContext = true := by
    simp [startMicrophone]
  refine ⟨hc, runFrom_preserves_context es _ hc, ?_, ?_, ?_, ?_⟩ <;>
    simp [startMicrophone]
